import Mathlib

/-!
Verification development for `tmr-novel-tracking`, a periodic web-scraping
notifier (scripts/check_updates.py and scripts/display_status.py).

The Python sources are shallowly embedded: pure fragments become Lean
functions, the stateful run loop becomes explicit state passing, the file
system and the network become explicit parameters (oracles).  Python strings
are modelled as Lean `String`/`List Char` (sequences of code points, matching
Python's `len` and slicing).  Chapter numbers, `float` in Python but always
produced by parsing a decimal literal `\d+(\.\d+)?`, are modelled as canonical
scaled decimals (`DecNum`), so that numeric equality is structural equality.
-/

/-- A non-negative decimal number `mant / 10 ^ exp`, kept canonical:
either `exp = 0`, or the last decimal digit of `mant` is non-zero
(no trailing zeros in the fractional part).  This represents the Python
`float` values produced by `float(match.group(1))` on a string of shape
`\d+(\.\d+)?`; two such parses are `==` in Python iff they denote the same
decimal value, i.e. iff their canonical forms coincide. -/
structure DecNum where
  mant : Nat
  exp : Nat
deriving DecidableEq, Repr

/-- Numeric value of a `DecNum` as a rational, for readability of statements. -/
def DecNum.toRat (n : DecNum) : Rat := (n.mant : Rat) / (10 : Rat) ^ n.exp

/-- Python `<` on the modelled floats (cross multiplication). -/
def DecNum.lt (a b : DecNum) : Bool := a.mant * 10 ^ b.exp < b.mant * 10 ^ a.exp

/-- Python `<=` on the modelled floats (cross multiplication). -/
def DecNum.le (a b : DecNum) : Bool := a.mant * 10 ^ b.exp ≤ b.mant * 10 ^ a.exp

/-- ASCII digit test, modelling `\d` on the inputs that occur (ASCII). -/
def isDigitChar (c : Char) : Bool := '0' ≤ c && c ≤ '9'

/-- Whitespace test, modelling `\s` on the inputs that occur. -/
def isSpaceChar (c : Char) : Bool :=
  c = ' ' || c = '\t' || c = '\n' || c = '\r' || c = '\x0b' || c = '\x0c'

/-- Case folding as used by `re.IGNORECASE` on the characters of the
patterns at hand: ASCII letters plus the Vietnamese capitals of `Chương`. -/
def pyLower (c : Char) : Char :=
  if 'A' ≤ c && c ≤ 'Z' then Char.ofNat (c.toNat + 32)
  else if c = 'Ư' then 'ư'
  else if c = 'Ơ' then 'ơ'
  else c

/-- Numeric value of a list of ASCII digits. -/
def natOfDigits (ds : List Char) : Nat :=
  ds.foldl (fun a c => a * 10 + (c.toNat - 48)) 0

/-- Drop trailing `'0'` characters. -/
def stripTrailingZeros (ds : List Char) : List Char :=
  (ds.reverse.dropWhile (fun c => c = '0')).reverse

/-- Canonical `DecNum` from integer digits and fractional digits,
the value `float(int ++ "." ++ frac)` of the Python capture. -/
def DecNum.ofDigits (int frac : List Char) : DecNum :=
  let f := stripTrailingZeros frac
  ⟨natOfDigits (int ++ f), f.length⟩

/-- Match the regex fragment `(\d+(?:\.\d+)?)` at the head of `cs` and
return the captured value; `none` if no digit is present.  The optional
fractional group is greedy, exactly as in `re`. -/
def matchNumber (cs : List Char) : Option DecNum :=
  let ds := cs.takeWhile isDigitChar
  if ds.isEmpty then none
  else
    match cs.dropWhile isDigitChar with
    | '.' :: rest =>
      let fs := rest.takeWhile isDigitChar
      if fs.isEmpty then some (DecNum.ofDigits ds [])
      else some (DecNum.ofDigits ds fs)
    | _ => some (DecNum.ofDigits ds [])

/-- Strip `kw` from the head of `cs` up to `pyLower` (models a literal
keyword under `re.IGNORECASE`); return the remainder on success. -/
def stripKeyword : List Char → List Char → Option (List Char)
  | [], cs => some cs
  | _ :: _, [] => none
  | k :: ks, c :: cs => if pyLower c = pyLower k then stripKeyword ks cs else none

/-- Strip `kw` from the head of `cs` exactly (case sensitive, for the URL
pattern, which is compiled without `re.IGNORECASE`). -/
def stripExact : List Char → List Char → Option (List Char)
  | [], cs => some cs
  | _ :: _, [] => none
  | k :: ks, c :: cs => if c = k then stripExact ks cs else none

/-- Match one title pattern `kw ++ \s+ ++ (\d+(?:\.\d+)?)` (when
`needSpace`) or `kw ++ (\d+(?:\.\d+)?)` (the `#` pattern) at the head
of `cs`, case-insensitively. -/
def matchKwNum (kw : List Char) (needSpace : Bool) (cs : List Char) : Option DecNum :=
  match stripKeyword kw cs with
  | none => none
  | some rest =>
    if needSpace then
      if (rest.takeWhile isSpaceChar).isEmpty then none
      else matchNumber (rest.dropWhile isSpaceChar)
    else matchNumber rest

/-- Match the URL pattern `/c(\d+(?:\.\d+)?)` at the head of `cs`
(case sensitive). -/
def matchUrlNum (cs : List Char) : Option DecNum :=
  match stripExact ['/', 'c'] cs with
  | none => none
  | some rest => matchNumber rest

/-- `re.search` semantics: return the match at the earliest starting
position in `cs`, scanning left to right. -/
def searchAt (m : List Char → Option DecNum) : List Char → Option DecNum
  | [] => m []
  | c :: cs =>
    match m (c :: cs) with
    | some n => some n
    | none => searchAt m cs

/-- The ordered title patterns of `ChapterChecker.extract_chapter_number`:
`Chương\s+(\d+(?:\.\d+)?)`, `Chapter\s+(\d+(?:\.\d+)?)`,
`Chap\s+(\d+(?:\.\d+)?)`, `#(\d+(?:\.\d+)?)`, all `re.IGNORECASE`. -/
def titlePatterns : List (List Char → Option DecNum) :=
  [ matchKwNum "Chương".data true
  , matchKwNum "Chapter".data true
  , matchKwNum "Chap".data true
  , matchKwNum "#".data false ]

/-- The `for pattern in patterns` loop: try each pattern with `re.search`
over the whole title, in order, returning the first success. -/
def tryPatterns : List (List Char → Option DecNum) → List Char → Option DecNum
  | [], _ => none
  | p :: ps, cs =>
    match searchAt p cs with
    | some n => some n
    | none => tryPatterns ps cs

/-- `ChapterChecker.extract_chapter_number` (check_updates.py:163-192):
try the ordered title patterns; if none matches, fall back to
`re.search(r'/c(\d+(?:\.\d+)?)', href)`; if that also fails, return `None`
(a warning is logged; no exception escapes).  The `float(...)` conversion
of a captured `\d+(?:\.\d+)?` string never raises, so the
`except ValueError: continue` branches are dead. -/
def extract_chapter_number (title href : String) : Option DecNum :=
  match tryPatterns titlePatterns title.data with
  | some n => some n
  | none => searchAt matchUrlNum href.data

/-- A chapter record as built by `ChapterChecker.parse_chapters`:
`{"number": float, "title": str, "url": str, "timestamp": str}`. -/
structure Chapter where
  number : DecNum
  title : String
  url : String
  timestamp : String
deriving DecidableEq, Repr

/-- `ChapterChecker.get_new_chapters` (check_updates.py:194-204): on first
run (`if not cached_chapters`) return `current_chapters[:5]`; otherwise
return the current records whose `number` is not in the set of cached
numbers, preserving the order of `current_chapters`. -/
def get_new_chapters (current cached : List Chapter) : List Chapter :=
  if cached = [] then current.take 5
  else
    let cachedNums := cached.map (fun c => c.number)
    current.filter (fun c => !(decide (c.number ∈ cachedNums)))

/-- Python truthiness of `Optional[float]`: `None` and `0.0` are falsy.
`parse_chapters` guards record creation with `if chapter_num:`. -/
def pyTruthyOptFloat : Option DecNum → Bool
  | none => false
  | some n => !(n.mant = 0)

/-- URL normalisation of `parse_chapters`:
`f"https://ln.hako.vn{href}" if href.startswith('/') else href`. -/
def mkChapterUrl (href : String) : String :=
  if href.data.head? = some '/' then "https://ln.hako.vn" ++ href else href

/-- One iteration of the `for link in chapter_links` loop of
`parse_chapters` (check_updates.py:102-115): build a record from the link
title and href when `extract_chapter_number` yields a truthy value. -/
def parseLink (ts : String) (l : String × String) : Option Chapter :=
  let num := extract_chapter_number l.1 l.2
  if pyTruthyOptFloat num then
    match num with
    | some n => some ⟨n, l.1, mkChapterUrl l.2, ts⟩
    | none => none
  else none

/-- Stable insertion for a descending sort by `number`: `c` is placed
before the first element whose number is `≤ c.number`, so elements with
equal keys keep their original relative order, as Python's stable
`list.sort(key=..., reverse=True)` does. -/
def insertDesc (c : Chapter) : List Chapter → List Chapter
  | [] => [c]
  | x :: xs => if DecNum.le x.number c.number then c :: x :: xs else x :: insertDesc c xs

/-- `chapters.sort(key=lambda x: x['number'], reverse=True)`: stable
descending sort by chapter number. -/
def sortChaptersDesc (l : List Chapter) : List Chapter :=
  l.foldr insertDesc []

/-- `ChapterChecker.parse_chapters` (check_updates.py:89-123), past the
markup-library boundary: BeautifulSoup's extraction of `(title, href)`
pairs from the `list-chapter` container is the external collaborator, so
the function takes the extracted pairs directly (`[]` both when the
container is missing and when it holds no links).  `ts` is the
`datetime.now(timezone.utc).isoformat()` value stamped on each record. -/
def parse_chapters (links : List (String × String)) (ts : String) : List Chapter :=
  sortChaptersDesc (links.filterMap (parseLink ts))

/-- Outcome of `ChapterChecker.fetch_page`: the returned value, the
sequence of back-off sleeps performed (in seconds), and the number of
request attempts made. -/
structure FetchTrace where
  result : Option String
  sleeps : List Nat
  attempts : Nat
deriving DecidableEq, Repr

/-- `MAX_RETRIES` (check_updates.py:24). -/
def MAX_RETRIES : Nat := 3

/-- `RETRY_DELAY` (check_updates.py:25), seconds. -/
def RETRY_DELAY : Nat := 5

/-- The `for attempt in range(MAX_RETRIES)` loop of `fetch_page`
(check_updates.py:64-79).  `oracle k` is the outcome of the `k`-th HTTP
request (`some text` on success, `none` for a raised `RequestException`);
`remaining = MAX_RETRIES - attempt`.  On failure with `attempt <
MAX_RETRIES - 1` the loop sleeps `RETRY_DELAY * (2 ** attempt)` and
retries; on failure at the last attempt it returns `None`. -/
def fetchLoop (oracle : Nat → Option String) (attempt : Nat) : Nat → FetchTrace
  | 0 => ⟨none, [], 0⟩
  | remaining + 1 =>
    match oracle attempt with
    | some text => ⟨some text, [], 1⟩
    | none =>
      if remaining = 0 then ⟨none, [], 1⟩
      else
        let t := fetchLoop oracle (attempt + 1) remaining
        ⟨t.result, RETRY_DELAY * 2 ^ attempt :: t.sleeps, t.attempts + 1⟩

/-- `ChapterChecker.fetch_page` as a function of the per-attempt network
oracle. -/
def fetch_page (oracle : Nat → Option String) : FetchTrace :=
  fetchLoop oracle 0 MAX_RETRIES

/-- The JSON trees handled by the `json` library (`json.dump`/`json.load`
form an external, inverse pair on these trees; numbers are restricted to
the decimal values that occur in the cache). -/
inductive Json where
  | null : Json
  | str : String → Json
  | num : DecNum → Json
  | arr : List Json → Json
  | obj : List (String × Json) → Json

/-- Per-novel cache entry: `{"chapters": [...], "last_check": iso}`
as written by `ChapterChecker.run` (check_updates.py:300-304). -/
structure NovelCache where
  chapters : List Chapter
  last_check : String
deriving DecidableEq, Repr

/-- The whole cache snapshot `{"novels": {...}, "last_check": ...}`;
`last_check` is `None` in the default shape returned by `load_cache`. -/
structure CacheSnapshot where
  novels : List (String × NovelCache)
  last_check : Option String
deriving DecidableEq, Repr

/-- JSON encoding of a chapter record (the dict built in
`parse_chapters`, as serialised by `json.dump`). -/
def encodeChapter (c : Chapter) : Json :=
  .obj [("number", .num c.number), ("title", .str c.title),
        ("url", .str c.url), ("timestamp", .str c.timestamp)]

/-- JSON encoding of a per-novel cache entry. -/
def encodeNovelCache (n : NovelCache) : Json :=
  .obj [("chapters", .arr (n.chapters.map encodeChapter)),
        ("last_check", .str n.last_check)]

/-- JSON encoding of an optional string (`None` → `null`). -/
def encodeOptStr : Option String → Json
  | none => .null
  | some s => .str s

/-- JSON encoding of the cache snapshot, the tree `save_cache` hands to
`json.dump`. -/
def encodeCache (s : CacheSnapshot) : Json :=
  .obj [("novels", .obj (s.novels.map (fun p => (p.1, encodeNovelCache p.2)))),
        ("last_check", encodeOptStr s.last_check)]

/-- Decode a chapter record from its JSON shape. -/
def decodeChapter : Json → Option Chapter
  | .obj [("number", .num n), ("title", .str t), ("url", .str u), ("timestamp", .str ts)] =>
    some ⟨n, t, u, ts⟩
  | _ => none

/-- Decode a list of chapter records. -/
def decodeChapters : List Json → Option (List Chapter)
  | [] => some []
  | j :: js =>
    match decodeChapter j, decodeChapters js with
    | some c, some cs => some (c :: cs)
    | _, _ => none

/-- Decode a per-novel cache entry. -/
def decodeNovelCache : Json → Option NovelCache
  | .obj [("chapters", .arr js), ("last_check", .str lc)] =>
    match decodeChapters js with
    | some cs => some ⟨cs, lc⟩
    | none => none
  | _ => none

/-- Decode the novel table of a cache snapshot. -/
def decodeNovels : List (String × Json) → Option (List (String × NovelCache))
  | [] => some []
  | (k, j) :: rest =>
    match decodeNovelCache j, decodeNovels rest with
    | some n, some ns => some ((k, n) :: ns)
    | _, _ => none

/-- Decode an optional string. -/
def decodeOptStr : Json → Option (Option String)
  | .null => some none
  | .str s => some (some s)
  | _ => none

/-- Decode a cache snapshot from its JSON shape. -/
def decodeCache : Json → Option CacheSnapshot
  | .obj [("novels", .obj kvs), ("last_check", lc)] =>
    match decodeNovels kvs, decodeOptStr lc with
    | some ns, some l => some ⟨ns, l⟩
    | _, _ => none
  | _ => none

/-- The default shape `{"novels": {}, "last_check": None}` returned by
`load_cache` when the cache file is absent (check_updates.py:53). -/
def defaultCacheJson : Json := .obj [("novels", .obj []), ("last_check", .null)]

/-- `ChapterChecker.save_cache` (check_updates.py:55-62) on the modelled
file system (the parsed content of `cache.json`, `none` when the file
does not exist): the successful write replaces the file content with the
serialised tree.  The `IOError` branch only logs and leaves the file
unchanged; the round-trip claim concerns the successful write. -/
def save_cache (fs : Option Json) (data : Json) : Option Json :=
  let _ := fs
  some data

/-- `ChapterChecker.load_cache` (check_updates.py:45-53): return the
parsed file content if the file exists, the default shape otherwise. -/
def load_cache (fs : Option Json) : Json :=
  match fs with
  | some j => j
  | none => defaultCacheJson

/-- Python dict lookup on an association list (keys are unique in a
dict, so first match is the binding). -/
def lookupKey {α : Type} : List (String × α) → String → Option α
  | [], _ => none
  | (k, v) :: rest, key => if k = key then some v else lookupKey rest key

/-- Python dict update `d[key] = v`: replace the existing binding in
place, or append a new one. -/
def setKey {α : Type} : List (String × α) → String → α → List (String × α)
  | [], key, v => [(key, v)]
  | (k, w) :: rest, key, v =>
    if k = key then (key, v) :: rest else (k, w) :: setKey rest key v

/-- A novel record parsed from the group page
(`{"id": ..., "title": ..., "url": ...}`). -/
structure NovelInfo where
  id : String
  title : String
  url : String
deriving DecidableEq, Repr

/-- A new chapter annotated with its parent novel, as produced by the
`for chapter in new_chapters` loop of `run` (check_updates.py:294-296). -/
structure AnnChapter where
  chapter : Chapter
  novel_title : String
  novel_url : String
deriving DecidableEq, Repr

/-- State threaded through the `for novel in novels` loop of `run`:
the in-memory `cache['novels']` table and the accumulated
`all_new_chapters`. -/
structure RunState where
  novels : List (String × NovelCache)
  newChapters : List AnnChapter
deriving DecidableEq, Repr

/-- One iteration of the `for novel in novels` loop of `ChapterChecker.run`
(check_updates.py:268-304).  `fo url` is the per-attempt network oracle
for `url`; `lo html` is the markup library's extraction of the
chapter-link `(title, href)` pairs from `html`; `ts` is the run's clock
value.  A failed fetch (`if not html`) and an empty parse
(`if not current_chapters`) both `continue`, leaving the state
untouched; otherwise the novel's cache entry is overwritten with the
freshly parsed list and the diff is appended to `all_new_chapters`. -/
def processNovel (fo : String → Nat → Option String)
    (lo : String → List (String × String)) (ts : String)
    (st : RunState) (novel : NovelInfo) : RunState :=
  match (fetch_page (fo novel.url)).result with
  | none => st
  | some html =>
    match parse_chapters (lo html) ts with
    | [] => st
    | c :: cs =>
      let current := c :: cs
      let cached :=
        match lookupKey st.novels novel.id with
        | some nc => nc.chapters
        | none => []
      let newChaps := get_new_chapters current cached
      { novels := setKey st.novels novel.id ⟨current, ts⟩,
        newChapters := st.newChapters ++
          newChaps.map (fun ch => ⟨ch, novel.title, novel.url⟩) }

/-- The `for novel in novels` loop of `ChapterChecker.run` over the list
of parsed novels. -/
def runNovels (fo : String → Nat → Option String)
    (lo : String → List (String × String)) (ts : String)
    (st : RunState) (novels : List NovelInfo) : RunState :=
  novels.foldl (processNovel fo lo ts) st

/-- A novel row as scraped by `display_status.scrape_page`.  Strings are
modelled as lists of code points (`len` and slicing in Python count code
points). -/
structure StatusNovel where
  title : List Char
  link : List Char
  status : List Char
  last_update : List Char
deriving DecidableEq, Repr

/-- One field of a Discord embed. -/
structure EmbedField where
  name : List Char
  value : List Char
  inline : Bool
deriving DecidableEq, Repr

/-- One embed of the status payload. -/
structure StatusEmbed where
  title : List Char
  color : Nat
  fields : List EmbedField
  footer : List Char
deriving DecidableEq, Repr

/-- The JSON body `{"embeds": [...]}` sent by `send_status_to_discord`. -/
structure StatusPayload where
  embeds : List StatusEmbed
deriving DecidableEq, Repr

/-- `novels[i:i + chunk_size]` slices for `i in range(0, len(novels),
chunk_size)` with `chunk_size = 25` (display_status.py:55-56), via a fuel
argument (`fuel ≥ l.length` always holds at the call site). -/
def chunksFuel {α : Type} : Nat → List α → List (List α)
  | 0, _ => []
  | _ + 1, [] => []
  | fuel + 1, x :: xs => (x :: xs).take 25 :: chunksFuel fuel ((x :: xs).drop 25)

/-- The chunk list of `send_status_to_discord`. -/
def chunks25 {α : Type} (l : List α) : List (List α) := chunksFuel l.length l

/-- Field name for one novel (display_status.py:63):
`title[:250] + "..." if len(title) > 250 else title`. -/
def statusFieldName (t : List Char) : List Char :=
  if 250 < t.length then t.take 250 ++ "...".data else t

/-- Field value for one novel (display_status.py:65-68): the formatted
status/update pair, truncated to `value[:997] + "..."` when longer than
1000 characters. -/
def statusFieldValue (n : StatusNovel) : List Char :=
  let v := "**Trạng thái:** ".data ++ n.status ++ "\n**Cập nhật:** ".data ++ n.last_update
  if 1000 < v.length then v.take 997 ++ "...".data else v

/-- The field dict built for one novel (display_status.py:69-73). -/
def statusField (n : StatusNovel) : EmbedField :=
  ⟨statusFieldName n.title, statusFieldValue n, false⟩

/-- Embed title (display_status.py:75-77): the base title, with a
` (phần i+1)` suffix when there is more than one chunk. -/
def statusEmbedTitle (i chunkCount : Nat) : List Char :=
  "Trạng thái các bộ truyện - The Mavericks".data ++
    (if 1 < chunkCount then " (phần ".data ++ (Nat.repr (i + 1)).data ++ ")".data else [])

/-- Embed footer (display_status.py:83-85). -/
def statusEmbedFooter (total i chunkCount : Nat) : List Char :=
  "Tổng cộng ".data ++ (Nat.repr total).data ++ " bộ truyện • Phần ".data ++
    (Nat.repr (i + 1)).data ++ "/".data ++ (Nat.repr chunkCount).data

/-- The embed built for chunk `i` (display_status.py:79-86). -/
def statusEmbed (total chunkCount i : Nat) (chunk : List StatusNovel) : StatusEmbed :=
  ⟨statusEmbedTitle i chunkCount, 0x0099ff, chunk.map statusField,
    statusEmbedFooter total i chunkCount⟩

/-- The `for i, chunk in enumerate(chunks)` loop (display_status.py:59-87). -/
def buildEmbeds (total chunkCount : Nat) : Nat → List (List StatusNovel) → List StatusEmbed
  | _, [] => []
  | i, c :: cs => statusEmbed total chunkCount i c :: buildEmbeds total chunkCount (i + 1) cs

/-- The payload-construction part of `display_status.send_status_to_discord`
(display_status.py:53-89); the HTTP delivery that follows is the external
collaborator. -/
def send_status_payload (novels : List StatusNovel) : StatusPayload :=
  let chunks := chunks25 novels
  ⟨buildEmbeds novels.length chunks.length 0 chunks⟩

/-- Replace every occurrence of the non-empty pattern `pat` by `rep`,
scanning left to right without overlap: Python `str.replace`.  The fuel
is the length of the subject, which every call strictly decreases, so it
is never exhausted (no caller passes an empty pattern). -/
def replaceFuel (pat rep : List Char) : Nat → List Char → List Char
  | 0, s => s
  | _ + 1, [] => []
  | fuel + 1, c :: cs =>
    if pat ≠ [] && pat.isPrefixOf (c :: cs) then
      rep ++ replaceFuel pat rep fuel ((c :: cs).drop pat.length)
    else
      c :: replaceFuel pat rep fuel cs

/-- Python `str.replace(pat, rep)` on code-point lists. -/
def pyReplace (s pat rep : List Char) : List Char := replaceFuel pat rep s.length s

/-- A Python value stored in a chapter dict: the string fields and the
`float` chapter number. -/
inductive PyVal where
  | s : List Char → PyVal
  | f : DecNum → PyVal
deriving DecidableEq, Repr

/-- A chapter dict as passed to `send_discord_notification` (unique
keys; first match models dict lookup). -/
def PyDict : Type := List (String × PyVal)

/-- `d[k]` / `d.get(k)`. -/
def pyGet (d : PyDict) (k : String) : Option PyVal := lookupKey d k

/-- Decimal digit string of `n`, fractional part included, matching
Python `str(float)` on the exact short decimals that occur
(`str(7.0) = "7.0"`, `str(12.5) = "12.5"`). -/
def pyFloatRepr (n : DecNum) : List Char :=
  if n.exp = 0 then (Nat.repr n.mant).data ++ ".0".data
  else
    let fd := (Nat.repr (n.mant % 10 ^ n.exp)).data
    (Nat.repr (n.mant / 10 ^ n.exp)).data ++ ".".data ++
      (List.replicate (n.exp - fd.length) '0' ++ fd)

/-- Rendering of a `PyVal` inside an f-string. -/
def pyStr : PyVal → List Char
  | .s v => v
  | .f n => pyFloatRepr n

/-- The mutable part of the loaded Discohook template that
`send_discord_notification` touches: `template['embeds'][0]`. -/
structure NotifTemplate where
  description : List Char
deriving DecidableEq, Repr

/-- The embed after substitution, i.e. the fields of
`template['embeds'][0]` that the function writes before posting. -/
structure NotifEmbed where
  description : List Char
  timestamp : List Char
  image_url : List Char
  thumbnail_url : List Char
deriving DecidableEq, Repr

/-- The static cover-image placeholder (check_updates.py:237-238). -/
def placeholderCover : List Char :=
  "https://i.hako.vn/ln/series/covers/s22527-2e663ae3-a81e-4a43-9be2-a9f090d6b3ec.jpg".data

/-- The formatting part of `ChapterChecker.send_discord_notification`
(check_updates.py:206-238): the sequence of literal substitutions into
the template description, the timestamp copy, and the static
image/thumbnail placeholders.  `isoToUnix` stands for the external
`datetime.fromisoformat(...).timestamp()` conversion, `int`-truncated.
The fields `url` and `timestamp` must be strings (they receive a
`.replace` call), the annotation `novel_title` must be a string when
present (it is passed to `str.replace`) and defaults to
`'Unknown Novel'`; `novel_url` is read with a default of `''` but never
used afterwards.  Any failed access raises inside the
`try`/`except`, which logs and drops this one record: result `none`. -/
def send_discord_format (isoToUnix : List Char → Int) (tmpl : NotifTemplate)
    (chapter : PyDict) : Option NotifEmbed :=
  match pyGet chapter "number", pyGet chapter "title",
        pyGet chapter "url", pyGet chapter "timestamp" with
  | some numv, some titlev, some (.s curl), some (.s cts) =>
    let novel_title :=
      match pyGet chapter "novel_title" with
      | some (.s s) => some s
      | some (.f _) => none
      | none => some "Unknown Novel".data
    let _novel_url :=
      match pyGet chapter "novel_url" with
      | some v => pyStr v
      | none => []
    match novel_title with
    | none => none
    | some nt =>
      let d := tmpl.description
      let d := pyReplace d "**Tên Truyện**".data nt
      let d := pyReplace d "**Tên Chương**".data
        ("Chương ".data ++ pyStr numv ++ ": ".data ++ pyStr titlev)
      let d := pyReplace d "**Tên Danh Mục**".data "The Mavericks".data
      let d := pyReplace d "timestamp".data
        (toString (isoToUnix (pyReplace cts "Z".data "+00:00".data))).data
      let d := pyReplace d "- Link chap tên miền docln.net".data
        ("- Link chap tên miền docln.net: ".data ++
          pyReplace curl "ln.hako.vn".data "docln.net".data)
      let d := pyReplace d "- Link chap tên miền docln.sbs".data
        ("- Link chap tên miền docln.sbs: ".data ++
          pyReplace curl "ln.hako.vn".data "docln.sbs".data)
      let d := pyReplace d "- Link chap tên miền ln.hako.vn".data
        ("- Link chap tên miền ln.hako.vn: ".data ++ curl)
      some ⟨d, cts, placeholderCover, placeholderCover⟩
  | _, _, _, _ => none

/-- The dict keys `send_discord_notification` reads from the chapter
record. -/
def notifRelevantKeys : List String :=
  ["number", "title", "url", "timestamp", "novel_title", "novel_url"]

/-- Observable outcome of running one of the two scripts to completion. -/
structure MainOutcome where
  warnedMissingWebhook : Bool
  printedNoWebhook : Bool
  notificationsSkipped : Bool
  exitCode : Nat
deriving DecidableEq, Repr

/-- Python falsiness of the fetched environment value: `os.getenv`
returns `None` when unset, and `if not webhook_url` is also taken for an
empty string. -/
def pyFalsyStr : Option String → Bool
  | none => true
  | some s => s = ""

/-- `check_updates.main` (check_updates.py:320-326) together with the
notification gate of `run` (check_updates.py:307-312): a falsy
`CFU_NOVEL_WEBHOOKS` produces a logged warning and skips the
notification loop; nothing on this path calls `sys.exit` or lets an
exception escape (`fetch_page`, `load_cache`, `save_cache` and
`send_discord_notification` each catch their failures), so the process
ends with exit status 0. -/
def check_updates_main (webhook : Option String) : MainOutcome :=
  let missing := pyFalsyStr webhook
  ⟨missing, false, missing, 0⟩

/-- The `__main__` block of `display_status.py` (display_status.py:100-126).
`preludeOk` abstracts the scraping and the `novel_status.md` write that
precede the webhook check; when they raise, the interpreter aborts with a
traceback (exit 1) regardless of the webhook variable.  With the prelude
succeeded, a falsy `DISCORD_WEBHOOK_URL` prints
`No Discord webhook URL provided` and the script ends normally (exit 0);
delivery errors in the truthy branch are caught. -/
def display_status_main (preludeOk : Bool) (webhook : Option String) : MainOutcome :=
  if !preludeOk then ⟨false, false, true, 1⟩
  else
    let missing := pyFalsyStr webhook
    ⟨false, missing, missing, 0⟩


/-! ## Helper lemmas -/

lemma lookupKey_setKey_self {α : Type} (m : List (String × α)) (k : String) (v : α) :
    lookupKey (setKey m k v) k = some v := by
  induction m with
  | nil => simp [setKey, lookupKey]
  | cons p rest ih =>
    by_cases h : p.1 = k
    · simp [setKey, h, lookupKey]
    · simp [setKey, h, lookupKey, ih]

lemma mem_insertDesc (c x : Chapter) (l : List Chapter) :
    x ∈ insertDesc c l ↔ x = c ∨ x ∈ l := by
  induction l with
  | nil => simp [insertDesc]
  | cons y ys ih =>
    by_cases h : DecNum.le y.number c.number
    · simp [insertDesc, h]
    · simp [insertDesc, h, ih]
      tauto

lemma mem_sortChaptersDesc (x : Chapter) (l : List Chapter) :
    x ∈ sortChaptersDesc l ↔ x ∈ l := by
  induction l with
  | nil => simp [sortChaptersDesc]
  | cons y ys ih =>
    simp only [sortChaptersDesc, List.foldr] at ih ⊢
    rw [mem_insertDesc, ih, List.mem_cons]

lemma parseLink_number_ne_zero (ts : String) (l : String × String) (c : Chapter)
    (h : parseLink ts l = some c) : c.number.mant ≠ 0 := by
  unfold parseLink at h
  cases he : extract_chapter_number l.1 l.2 with
  | none => rw [he] at h; simp [pyTruthyOptFloat] at h
  | some n =>
    rw [he] at h
    by_cases hz : n.mant = 0
    · simp [pyTruthyOptFloat, hz] at h
    · simp [pyTruthyOptFloat, hz] at h
      subst h
      simpa using hz

lemma decodeChapter_encodeChapter (c : Chapter) :
    decodeChapter (encodeChapter c) = some c := rfl

lemma decodeChapters_map_encode (l : List Chapter) :
    decodeChapters (l.map encodeChapter) = some l := by
  induction l with
  | nil => rfl
  | cons c cs ih => simp [decodeChapters, decodeChapter_encodeChapter, ih]

lemma decodeNovelCache_encode (n : NovelCache) :
    decodeNovelCache (encodeNovelCache n) = some n := by
  simp [encodeNovelCache, decodeNovelCache, decodeChapters_map_encode]

lemma decodeNovels_map_encode (l : List (String × NovelCache)) :
    decodeNovels (l.map (fun p => (p.1, encodeNovelCache p.2))) = some l := by
  induction l with
  | nil => rfl
  | cons p ps ih => simp [decodeNovels, decodeNovelCache_encode, ih]

lemma decodeCache_encodeCache (s : CacheSnapshot) :
    decodeCache (encodeCache s) = some s := by
  cases s with
  | mk novels lc =>
    cases lc <;>
      simp [encodeCache, decodeCache, decodeNovels_map_encode, encodeOptStr, decodeOptStr]

lemma chunksFuel_mem_length {α : Type} (fuel : Nat) (l : List α) (c : List α)
    (h : c ∈ chunksFuel fuel l) : c.length ≤ 25 := by
  induction fuel generalizing l with
  | zero => simp [chunksFuel] at h
  | succ fuel ih =>
    cases l with
    | nil => simp [chunksFuel] at h
    | cons x xs =>
      simp only [chunksFuel, List.mem_cons] at h
      cases h with
      | inl h => subst h; simp only [List.length_take]; omega
      | inr h => exact ih _ h

lemma chunksFuel_flatten {α : Type} (fuel : Nat) (l : List α) (h : l.length ≤ fuel) :
    (chunksFuel fuel l).flatten = l := by
  induction fuel generalizing l with
  | zero =>
    cases l with
    | nil => rfl
    | cons x xs => simp at h
  | succ fuel ih =>
    cases l with
    | nil => rfl
    | cons x xs =>
      have hd : ((x :: xs).drop 25).length ≤ fuel := by
        rw [List.length_drop]
        simp only [List.length_cons] at h ⊢
        omega
      simp only [chunksFuel, List.flatten_cons, ih _ hd]
      exact List.take_append_drop 25 (x :: xs)

lemma chunks25_flatten {α : Type} (l : List α) : (chunks25 l).flatten = l :=
  chunksFuel_flatten l.length l (Nat.le_refl _)

lemma mem_buildEmbeds (t k : Nat) (cs : List (List StatusNovel)) (e : StatusEmbed) :
    ∀ i, e ∈ buildEmbeds t k i cs → ∃ j c, c ∈ cs ∧ e = statusEmbed t k j c := by
  induction cs with
  | nil => intro i h; simp [buildEmbeds] at h
  | cons c cs ih =>
    intro i h
    simp only [buildEmbeds, List.mem_cons] at h
    cases h with
    | inl h => exact ⟨i, c, by simp, h⟩
    | inr h =>
      obtain ⟨j, c', hc', he⟩ := ih (i + 1) h
      exact ⟨j, c', by simp [hc'], he⟩

lemma map_fields_length_buildEmbeds (t k : Nat) (cs : List (List StatusNovel)) :
    ∀ i, (buildEmbeds t k i cs).map (fun e => e.fields.length) = cs.map List.length := by
  induction cs with
  | nil => intro i; rfl
  | cons c cs ih => intro i; simp [buildEmbeds, statusEmbed, ih]

lemma statusFieldName_length (t : List Char) : (statusFieldName t).length ≤ 256 := by
  unfold statusFieldName
  split
  · simp only [List.length_append, List.length_take, List.length_cons, List.length_nil]
    omega
  · omega

lemma statusFieldValue_length (n : StatusNovel) : (statusFieldValue n).length ≤ 1024 := by
  unfold statusFieldValue
  dsimp only
  split
  · simp only [List.length_append, List.length_take, List.length_cons, List.length_nil]
    omega
  · omega

/-! ## Claim theorems -/

/-- C1: with a non-empty cached list, `get_new_chapters` returns exactly
the current records whose number is absent from the cached numbers, in
the order of the current (newest-first) list; a current record whose
number is cached is never returned, even when its title or url differs
from the cached record.  The final conjunct is the spec's example:
cache keys 1,2,3 and current chapters 4,3,2,1 yield exactly chapter 4,
the current chapter 1 record differing from the cached one in title and
url. -/
theorem get_new_chapters_diff (current cached : List Chapter) (h : cached ≠ []) :
    (get_new_chapters current cached).Sublist current ∧
    (∀ c ∈ get_new_chapters current cached,
      c.number ∉ cached.map (fun x => x.number)) ∧
    (∀ c ∈ current, c.number ∉ cached.map (fun x => x.number) →
      c ∈ get_new_chapters current cached) ∧
    (∀ c ∈ current, c.number ∈ cached.map (fun x => x.number) →
      c ∉ get_new_chapters current cached) ∧
    get_new_chapters
      [⟨⟨4, 0⟩, "c4", "u4", "t"⟩, ⟨⟨3, 0⟩, "c3", "u3", "t"⟩,
       ⟨⟨2, 0⟩, "c2", "u2", "t"⟩, ⟨⟨1, 0⟩, "c1 edited", "u1b", "t"⟩]
      [⟨⟨3, 0⟩, "c3", "u3", "s"⟩, ⟨⟨2, 0⟩, "c2", "u2", "s"⟩,
       ⟨⟨1, 0⟩, "c1", "u1", "s"⟩]
    = [⟨⟨4, 0⟩, "c4", "u4", "t"⟩] := by
  refine ⟨?_, ?_, ?_, ?_, by decide⟩
  · simp only [get_new_chapters, if_neg h]
    exact List.filter_sublist current
  · intro c hc
    simp only [get_new_chapters, if_neg h, List.mem_filter,
      Bool.not_eq_true', decide_eq_false_iff_not] at hc
    exact hc.2
  · intro c hc hnum
    simp only [get_new_chapters, if_neg h, List.mem_filter,
      Bool.not_eq_true', decide_eq_false_iff_not]
    exact ⟨hc, hnum⟩
  · intro c _ hnum hmem
    simp only [get_new_chapters, if_neg h, List.mem_filter,
      Bool.not_eq_true', decide_eq_false_iff_not] at hmem
    exact hmem.2 hnum

/-- Witness for `get_new_chapters_diff` at the spec's example. -/
theorem get_new_chapters_diff_witness :
    ([⟨⟨3, 0⟩, "c3", "u3", "s"⟩, ⟨⟨2, 0⟩, "c2", "u2", "s"⟩,
      ⟨⟨1, 0⟩, "c1", "u1", "s"⟩] : List Chapter) ≠ [] ∧
    (⟨⟨1, 0⟩, "c1 edited", "u1b", "t"⟩ : Chapter) ∉
      get_new_chapters
        [⟨⟨4, 0⟩, "c4", "u4", "t"⟩, ⟨⟨3, 0⟩, "c3", "u3", "t"⟩,
         ⟨⟨2, 0⟩, "c2", "u2", "t"⟩, ⟨⟨1, 0⟩, "c1 edited", "u1b", "t"⟩]
        [⟨⟨3, 0⟩, "c3", "u3", "s"⟩, ⟨⟨2, 0⟩, "c2", "u2", "s"⟩,
         ⟨⟨1, 0⟩, "c1", "u1", "s"⟩] :=
  ⟨by decide,
   (get_new_chapters_diff _ _ (by decide)).2.2.2.1 _ (by decide) (by decide)⟩

/-- C2: with an empty cached list (first run), `get_new_chapters` returns
`current_chapters[:5]` — the first five records of the current list and
never more.  The last conjunct is the spec's example: an empty cache and
8 current chapters sorted newest-first yield exactly the 5 newest by
descending number. -/
theorem get_new_chapters_first_run :
    (∀ current : List Chapter, get_new_chapters current [] = current.take 5) ∧
    (∀ current : List Chapter, (get_new_chapters current []).length ≤ 5) ∧
    get_new_chapters
      [⟨⟨8, 0⟩, "c8", "u8", "t"⟩, ⟨⟨7, 0⟩, "c7", "u7", "t"⟩,
       ⟨⟨6, 0⟩, "c6", "u6", "t"⟩, ⟨⟨5, 0⟩, "c5", "u5", "t"⟩,
       ⟨⟨4, 0⟩, "c4", "u4", "t"⟩, ⟨⟨3, 0⟩, "c3", "u3", "t"⟩,
       ⟨⟨2, 0⟩, "c2", "u2", "t"⟩, ⟨⟨1, 0⟩, "c1", "u1", "t"⟩] []
    = [⟨⟨8, 0⟩, "c8", "u8", "t"⟩, ⟨⟨7, 0⟩, "c7", "u7", "t"⟩,
       ⟨⟨6, 0⟩, "c6", "u6", "t"⟩, ⟨⟨5, 0⟩, "c5", "u5", "t"⟩,
       ⟨⟨4, 0⟩, "c4", "u4", "t"⟩] := by
  refine ⟨fun current => by simp [get_new_chapters], fun current => ?_, by decide⟩
  rw [(by simp [get_new_chapters] :
    get_new_chapters current [] = current.take 5), List.length_take]
  omega

/-- C9: after `run` processes a novel whose page was fetched and parsed
to a non-empty chapter list, the cache entry for that novel id is exactly
`{"chapters": current_parse, "last_check": ts}` — replaced wholesale,
whatever the previous entry held; consequently every chapter in the
cached entry is a chapter of the most recent parse. -/
theorem run_cache_replaced_wholesale (fo : String → Nat → Option String)
    (lo : String → List (String × String)) (ts : String)
    (st : RunState) (n : NovelInfo) (html : String)
    (h1 : (fetch_page (fo n.url)).result = some html)
    (h2 : parse_chapters (lo html) ts ≠ []) :
    lookupKey (processNovel fo lo ts st n).novels n.id =
      some ⟨parse_chapters (lo html) ts, ts⟩ ∧
    (∀ nc, lookupKey (processNovel fo lo ts st n).novels n.id = some nc →
      ∀ c ∈ nc.chapters, c ∈ parse_chapters (lo html) ts) := by
  have hmain : lookupKey (processNovel fo lo ts st n).novels n.id =
      some ⟨parse_chapters (lo html) ts, ts⟩ := by
    unfold processNovel
    rw [h1]
    dsimp only
    cases hp : parse_chapters (lo html) ts with
    | nil => exact absurd hp h2
    | cons c cs => simp [lookupKey_setKey_self]
  refine ⟨hmain, ?_⟩
  intro nc hnc c hc
  rw [hmain] at hnc
  cases hnc
  exact hc

/-- Witness for `run_cache_replaced_wholesale`: a novel whose page yields
one chapter link, processed over a state whose cache held a stale
chapter, ends with exactly the fresh parse in its cache entry. -/
theorem run_cache_replaced_wholesale_witness :
    (fetch_page (fun _ => some "HTML")).result = some "HTML" ∧
    lookupKey
      (processNovel (fun _ => fun _ => some "HTML")
        (fun _ => [("Chapter 2", "/c2")]) "T"
        ⟨[("7", ⟨[⟨⟨1, 0⟩, "Chapter 1", "https://ln.hako.vn/c1", "S"⟩], "S"⟩)], []⟩
        ⟨"7", "Novel", "https://x"⟩).novels "7" =
      some ⟨[⟨⟨2, 0⟩, "Chapter 2", "https://ln.hako.vn/c2", "T"⟩], "T"⟩ := by
  refine ⟨by decide, ?_⟩
  have h := (run_cache_replaced_wholesale (fun _ => fun _ => some "HTML")
    (fun _ => [("Chapter 2", "/c2")]) "T"
    ⟨[("7", ⟨[⟨⟨1, 0⟩, "Chapter 1", "https://ln.hako.vn/c1", "S"⟩], "S"⟩)], []⟩
    ⟨"7", "Novel", "https://x"⟩ "HTML" (by decide) (by decide)).1
  rw [h]
  decide

/-- C5: `fetch_page` makes at most `MAX_RETRIES = 3` request attempts;
when the first two attempts fail it sleeps `RETRY_DELAY * 2 ** attempt`
seconds after each (5 after attempt 0, 10 after attempt 1); when all
three fail it returns `None` with no exception; and `run` treats a novel
whose fetch fails as a skip — the loop state is unchanged and the
remaining novels are still processed. -/
theorem fetch_page_retry_bounded (o : Nat → Option String) (s : String) :
    (fetch_page o).attempts ≤ 3 ∧
    (o 0 = none → o 1 = none → o 2 = none →
      fetch_page o = ⟨none, [RETRY_DELAY * 2 ^ 0, RETRY_DELAY * 2 ^ 1], 3⟩) ∧
    (o 0 = none → o 1 = some s →
      fetch_page o = ⟨some s, [RETRY_DELAY * 2 ^ 0], 2⟩) ∧
    (∀ (fo : String → Nat → Option String) (lo : String → List (String × String))
      (ts : String) (st : RunState) (n : NovelInfo) (rest : List NovelInfo),
      (∀ k, k < 3 → fo n.url k = none) →
      runNovels fo lo ts st (n :: rest) = runNovels fo lo ts st rest) := by
  refine ⟨?_, ?_, ?_, ?_⟩
  · cases h0 : o 0 <;> cases h1 : o 1 <;> cases h2 : o 2 <;>
      simp [fetch_page, MAX_RETRIES, fetchLoop, h0, h1, h2]
  · intro h0 h1 h2
    simp [fetch_page, MAX_RETRIES, RETRY_DELAY, fetchLoop, h0, h1, h2]
  · intro h0 h1
    simp [fetch_page, MAX_RETRIES, RETRY_DELAY, fetchLoop, h0, h1]
  · intro fo lo ts st n rest h
    have hres : (fetch_page (fo n.url)).result = none := by
      simp [fetch_page, MAX_RETRIES, fetchLoop,
        h 0 (by omega), h 1 (by omega), h 2 (by omega)]
    simp [runNovels, List.foldl, processNovel, hres]

/-- Witness for `fetch_page_retry_bounded`: an oracle that always fails
yields `None` after exactly 3 attempts with back-off sleeps 5 s and 10 s,
and under `run` the failing novel is skipped while the state survives
untouched. -/
theorem fetch_page_retry_bounded_witness :
    fetch_page (fun _ => none) = ⟨none, [5, 10], 3⟩ ∧
    runNovels (fun _ => fun _ => none) (fun _ => []) "T"
      ⟨[("7", ⟨[], "S"⟩)], []⟩ [⟨"7", "Novel", "https://x"⟩] =
      ⟨[("7", ⟨[], "S"⟩)], []⟩ :=
  ⟨(fetch_page_retry_bounded (fun _ => none) "").2.1 rfl rfl rfl,
   ((fetch_page_retry_bounded (fun _ => none) "").2.2.2
      (fun _ => fun _ => none) (fun _ => []) "T"
      ⟨[("7", ⟨[], "S"⟩)], []⟩ ⟨"7", "Novel", "https://x"⟩ []
      (fun _ _ => rfl)).trans rfl⟩

/-- C6: saving the cache snapshot and loading it back yields a
structurally equal snapshot.  `save_cache`/`load_cache` exchange the
JSON tree through the file (`json.dump`/`json.load` are the external
serialisation pair), and decoding the encoded snapshot recovers every
novel id, chapter number, title, url and timestamp exactly. -/
theorem cache_save_load_roundtrip (fs : Option Json) (s : CacheSnapshot) :
    load_cache (save_cache fs (encodeCache s)) = encodeCache s ∧
    decodeCache (encodeCache s) = some s :=
  ⟨rfl, decodeCache_encodeCache s⟩

/-- C10: a chapter whose extracted numeric key is `0` — whether from a
title like `Chapter 0` or a link path like `/c0` — is silently dropped
by `parse_chapters`, because the guard `if chapter_num:` tests Python
truthiness, under which `0.0` and `None` coincide; consequently no
parsed chapter ever carries number 0. -/
theorem parse_chapters_drops_zero :
    extract_chapter_number "Chapter 0" "" = some ⟨0, 0⟩ ∧
    extract_chapter_number "no title number" "/c0" = some ⟨0, 0⟩ ∧
    (∀ ts : String, parse_chapters [("Chapter 0", "/c0")] ts = []) ∧
    (∀ (links : List (String × String)) (ts : String) (c : Chapter),
      c ∈ parse_chapters links ts → c.number.mant ≠ 0) := by
  refine ⟨by decide, by decide, fun ts => rfl, ?_⟩
  intro links ts c hc
  rw [parse_chapters, mem_sortChaptersDesc, List.mem_filterMap] at hc
  obtain ⟨l, _, hl⟩ := hc
  exact parseLink_number_ne_zero ts l c hl

/-- Witness for `parse_chapters_drops_zero`: a parsed chapter with
number 1 is in the output and indeed has a non-zero key. -/
theorem parse_chapters_drops_zero_witness :
    (⟨⟨1, 0⟩, "Chapter 1", "https://ln.hako.vn/c1", "T"⟩ : Chapter) ∈
      parse_chapters [("Chapter 1", "/c1")] "T" ∧
    (⟨1, 0⟩ : DecNum).mant ≠ 0 :=
  ⟨by decide,
   parse_chapters_drops_zero.2.2.2 [("Chapter 1", "/c1")] "T"
     ⟨⟨1, 0⟩, "Chapter 1", "https://ln.hako.vn/c1", "T"⟩ (by decide)⟩

/-- C4 counterexample: the claim asserts that one of the two script
variants exits with a non-zero status when the webhook environment
variable is unset.  In the code, neither does: `check_updates.main` only
logs a warning and `run` skips the notification loop, and the
`__main__` block of `display_status.py` only prints
`No Discord webhook URL provided` — no `sys.exit` and no uncaught
exception arises from the missing variable, so both processes end with
exit status 0 (here with the scraping prelude of `display_status.py`
succeeding, so the outcome is attributable to the webhook variable). -/
theorem webhook_absent_exit_zero :
    (check_updates_main none).exitCode = 0 ∧
    (display_status_main true none).exitCode = 0 := by decide

/-- C4 (amended): when the webhook environment variable is unset (or
empty), `check_updates.py` warns and skips notifications while
completing normally with exit status 0, and `display_status.py`
(scraping prelude succeeding) prints its no-webhook notice, skips
delivery, and also completes normally with exit status 0; neither
variant terminates with a non-zero exit code on account of the missing
variable. -/
theorem webhook_absent_completes_normally (w : Option String)
    (h : pyFalsyStr w = true) :
    check_updates_main w = ⟨true, false, true, 0⟩ ∧
    display_status_main true w = ⟨false, true, true, 0⟩ := by
  simp [check_updates_main, display_status_main, h]

/-- Witness for `webhook_absent_completes_normally` at the unset
variable. -/
theorem webhook_absent_completes_normally_witness :
    pyFalsyStr none = true ∧
    check_updates_main none = ⟨true, false, true, 0⟩ ∧
    display_status_main true none = ⟨false, true, true, 0⟩ :=
  ⟨rfl, (webhook_absent_completes_normally none rfl).1,
    (webhook_absent_completes_normally none rfl).2⟩

/-- C3: `extract_chapter_number` tries the ordered, case-insensitive
title patterns and returns the first captured decimal number:
`Chương 12.5: ...` yields 12.5 and `Chapter 7` yields 7.0 (fractional
parts supported); the patterns are tried in order over the whole title
(`Chap 5 Chapter 3` yields 3, the `Chapter` pattern preceding `Chap`);
when no title pattern matches, the result is the `/c<number>` search on
the link; and when that fails too, the result is `None` — a total
function, no exception. -/
theorem extract_chapter_number_spec :
    extract_chapter_number "Chương 12.5: Tên chương" "" = some ⟨125, 1⟩ ∧
    DecNum.toRat ⟨125, 1⟩ = 25 / 2 ∧
    extract_chapter_number "Chapter 7" "" = some ⟨7, 0⟩ ∧
    DecNum.toRat ⟨7, 0⟩ = 7 ∧
    extract_chapter_number "Chap 5 Chapter 3" "" = some ⟨3, 0⟩ ∧
    (∀ title href : String, tryPatterns titlePatterns title.data = none →
      extract_chapter_number title href = searchAt matchUrlNum href.data) ∧
    (∀ title href : String, tryPatterns titlePatterns title.data = none →
      searchAt matchUrlNum href.data = none →
      extract_chapter_number title href = none) ∧
    extract_chapter_number "no numeric marker" "/offset/page" = none := by
  refine ⟨by decide, ?_, by decide, ?_, by decide, ?_, ?_, by decide⟩
  · norm_num [DecNum.toRat]
  · norm_num [DecNum.toRat]
  · intro title href h
    simp [extract_chapter_number, h]
  · intro title href h1 h2
    simp [extract_chapter_number, h1, h2]

/-- Witness for `extract_chapter_number_spec`: a title matching no
pattern falls back to the link, and with a patternless link the result
is `None`. -/
theorem extract_chapter_number_spec_witness :
    tryPatterns titlePatterns "tiêu đề".data = none ∧
    extract_chapter_number "tiêu đề" "/c9.25" = searchAt matchUrlNum "/c9.25".data ∧
    extract_chapter_number "tiêu đề" "/trang" = none :=
  ⟨by decide,
   extract_chapter_number_spec.2.2.2.2.2.1 "tiêu đề" "/c9.25" (by decide),
   extract_chapter_number_spec.2.2.2.2.2.2.1 "tiêu đề" "/trang" (by decide) (by decide)⟩

/-- C7: `send_status_to_discord` builds `{"embeds": [...]}` with the
novel list chunked 25 to an embed; every embed carries at most 25
fields, every field name at most 256 characters and every field value at
most 1024 characters, and no novel is dropped by the chunking (the field
counts over all embeds sum to the number of novels). -/
theorem send_status_embed_limits (novels : List StatusNovel) :
    (∀ e ∈ (send_status_payload novels).embeds,
      e.fields.length ≤ 25 ∧
      ∀ f ∈ e.fields, f.name.length ≤ 256 ∧ f.value.length ≤ 1024) ∧
    ((send_status_payload novels).embeds.map (fun e => e.fields.length)).sum
      = novels.length := by
  constructor
  · intro e he
    simp only [send_status_payload] at he
    obtain ⟨j, chunk, hc, rfl⟩ := mem_buildEmbeds _ _ _ _ 0 he
    refine ⟨?_, ?_⟩
    · simp only [statusEmbed, List.length_map]
      exact chunksFuel_mem_length _ _ _ hc
    · intro f hf
      simp only [statusEmbed, List.mem_map] at hf
      obtain ⟨nov, _, rfl⟩ := hf
      exact ⟨statusFieldName_length _, statusFieldValue_length _⟩
  · simp only [send_status_payload]
    rw [map_fields_length_buildEmbeds, ← List.length_flatten, chunks25_flatten]

/-- Witness for `send_status_embed_limits` on a one-novel list. -/
theorem send_status_embed_limits_witness :
    statusEmbed 1 1 0 [⟨"Tên truyện".data, "/t".data, "Đang tiến hành".data, "mới".data⟩] ∈
      (send_status_payload
        [⟨"Tên truyện".data, "/t".data, "Đang tiến hành".data, "mới".data⟩]).embeds ∧
    (statusEmbed 1 1 0
      [⟨"Tên truyện".data, "/t".data, "Đang tiến hành".data, "mới".data⟩]).fields.length ≤ 25 :=
  ⟨by decide,
   ((send_status_embed_limits
      [⟨"Tên truyện".data, "/t".data, "Đang tiến hành".data, "mới".data⟩]).1 _ (by decide)).1⟩

/-- C8: the notification formatting of `send_discord_notification` is a
pure transform of the template and the chapter record: in the embedding
it is a function, so invoking it twice on the same input is definitionally
byte-identical; substantively, its output is determined by the record's
`number`, `title`, `url`, `timestamp` and novel-annotation entries alone
(the three mirror-domain links are derived from the input url by literal
domain substitution inside the function — no randomness, clock or other
hidden state), so any two records agreeing on these keys format
identically. -/
theorem send_discord_format_input_determined (isoToUnix : List Char → Int)
    (tmpl : NotifTemplate) (c c' : PyDict)
    (h : ∀ k ∈ notifRelevantKeys, pyGet c k = pyGet c' k) :
    send_discord_format isoToUnix tmpl c = send_discord_format isoToUnix tmpl c' := by
  have h1 := h "number" (by simp [notifRelevantKeys])
  have h2 := h "title" (by simp [notifRelevantKeys])
  have h3 := h "url" (by simp [notifRelevantKeys])
  have h4 := h "timestamp" (by simp [notifRelevantKeys])
  have h5 := h "novel_title" (by simp [notifRelevantKeys])
  have h6 := h "novel_url" (by simp [notifRelevantKeys])
  simp only [send_discord_format, h1, h2, h3, h4, h5, h6]

/-- Witness for `send_discord_format_input_determined`: two records that
agree on the relevant keys but differ in an extra entry format to the
same payload. -/
theorem send_discord_format_input_determined_witness :
    (∀ k ∈ notifRelevantKeys,
      pyGet [("number", PyVal.f ⟨7, 0⟩), ("title", PyVal.s "Tên".data),
        ("url", PyVal.s "https://ln.hako.vn/c7".data),
        ("timestamp", PyVal.s "2025-01-01T00:00:00Z".data),
        ("junk", PyVal.s "x".data)] k =
      pyGet [("number", PyVal.f ⟨7, 0⟩), ("title", PyVal.s "Tên".data),
        ("url", PyVal.s "https://ln.hako.vn/c7".data),
        ("timestamp", PyVal.s "2025-01-01T00:00:00Z".data)] k) ∧
    send_discord_format (fun _ => 0) ⟨"**Tên Chương** lúc timestamp".data⟩
      [("number", PyVal.f ⟨7, 0⟩), ("title", PyVal.s "Tên".data),
        ("url", PyVal.s "https://ln.hako.vn/c7".data),
        ("timestamp", PyVal.s "2025-01-01T00:00:00Z".data),
        ("junk", PyVal.s "x".data)] =
    send_discord_format (fun _ => 0) ⟨"**Tên Chương** lúc timestamp".data⟩
      [("number", PyVal.f ⟨7, 0⟩), ("title", PyVal.s "Tên".data),
        ("url", PyVal.s "https://ln.hako.vn/c7".data),
        ("timestamp", PyVal.s "2025-01-01T00:00:00Z".data)] :=
  ⟨by decide, send_discord_format_input_determined _ _ _ _ (by decide)⟩
